import Mathlib

/-!
Verification of the Gemini insight service (`src/lib/geminiService.ts`) of the
streaming-dashboard repository.  The TypeScript service is shallowly embedded:
strings are Lean `String`s (the payloads relevant here are ASCII, where
JavaScript UTF-16 lengths and Lean codepoint lengths agree), thrown JavaScript
errors are modelled by their message via `Except String`, `undefined` fields by
`Option`, and the external Gemini endpoint by an explicit behaviour parameter.
`JSON.parse` is modelled by an executable JSON parser below; its number grammar
is restricted to integers (the payloads this service parses and all properties
below involve only integral numbers, and JavaScript float semantics are outside
the embedding).
-/

set_option maxRecDepth 8000

namespace GeminiService

/-- Whitespace as matched by the service's `\s` regexes and `trim()` calls
(modelled set: space, tab, LF, CR, VT, FF, NBSP, BOM). -/
def isJsSpace (c : Char) : Bool :=
  c = ' ' || c = '\t' || c = '\n' || c = '\r' ||
  c = Char.ofNat 0x0B || c = Char.ofNat 0x0C || c = Char.ofNat 0xA0 ||
  c = Char.ofNat 0xFEFF

/-- JavaScript `String.prototype.trim`. -/
def jsTrim (s : String) : String :=
  String.mk (((s.data.dropWhile isJsSpace).reverse.dropWhile isJsSpace).reverse)

/-- JavaScript `String.prototype.toLowerCase` (ASCII, which is all the error
classifier's patterns need). -/
def jsToLower (s : String) : String :=
  String.mk (s.data.map Char.toLower)

/-- Split a character list at every occurrence of a separator character
(JavaScript `split` semantics: empty pieces are kept). -/
def splitOnChar (sep : Char) : List Char → List (List Char)
  | [] => [[]]
  | c :: rest =>
    match splitOnChar sep rest with
    | [] => if c = sep then [[], []] else [[c]]
    | h :: t => if c = sep then [] :: h :: t else (c :: h) :: t

/-- JavaScript `s.split(sep)` for a one-character separator. -/
def jsSplit (s : String) (sep : Char) : List String :=
  (splitOnChar sep s.data).map String.mk

/-- JavaScript `s.startsWith(c)` for a one-character prefix. -/
def startsWithChar (s : String) (c : Char) : Bool :=
  match s.data with
  | [] => false
  | h :: _ => h = c

/-- Whether `pat` occurs as a contiguous run inside the character list. -/
def containsSubList (pat : List Char) : List Char → Bool
  | [] => pat.isEmpty
  | c :: rest => pat.isPrefixOf (c :: rest) || containsSubList pat rest

/-- JavaScript `String.prototype.includes`. -/
def containsSub (s pat : String) : Bool :=
  containsSubList pat.data s.data

/-- Parsed JSON values as produced by `JSON.parse` (numbers restricted to
integers, see the header note). -/
inductive Json where
  | null
  | bool (b : Bool)
  | num (n : Int)
  | str (s : String)
  | arr (elems : List Json)
  | obj (fields : List (String × Json))
deriving Repr

/-- JSON whitespace (`JSON.parse` skips exactly space, tab, LF, CR). -/
def isJsonWs (c : Char) : Bool :=
  c = ' ' || c = '\t' || c = '\n' || c = '\r'

/-- Drop leading JSON whitespace. -/
def skipWs (cs : List Char) : List Char :=
  cs.dropWhile isJsonWs

/-- Value of a hexadecimal digit (code points written numerically:
48-57 are the digits, 97-102 lowercase a-f, 65-70 uppercase A-F). -/
def hexVal (c : Char) : Option Nat :=
  let n := c.toNat
  if 48 ≤ n && n ≤ 57 then some (n - 48)
  else if 97 ≤ n && n ≤ 102 then some (n - 87)
  else if 65 ≤ n && n ≤ 70 then some (n - 55)
  else none

/-- JSON string body parser: consumes characters after the opening quote up to
the closing quote, decoding escapes; rejects raw control characters, as
`JSON.parse` does. -/
def parseStrAux : List Char → List Char → Option (String × List Char)
  | _, [] => none
  | acc, '"' :: rest => some (String.mk acc.reverse, rest)
  | acc, '\\' :: 'u' :: h1 :: h2 :: h3 :: h4 :: rest =>
    match hexVal h1, hexVal h2, hexVal h3, hexVal h4 with
    | some a, some b, some c, some d =>
      parseStrAux (Char.ofNat (((a * 16 + b) * 16 + c) * 16 + d) :: acc) rest
    | _, _, _, _ => none
  | acc, '\\' :: e :: rest =>
    if e = '"' then parseStrAux ('"' :: acc) rest
    else if e = '\\' then parseStrAux ('\\' :: acc) rest
    else if e = '/' then parseStrAux ('/' :: acc) rest
    else if e = 'b' then parseStrAux (Char.ofNat 8 :: acc) rest
    else if e = 'f' then parseStrAux (Char.ofNat 12 :: acc) rest
    else if e = 'n' then parseStrAux ('\n' :: acc) rest
    else if e = 'r' then parseStrAux ('\r' :: acc) rest
    else if e = 't' then parseStrAux ('\t' :: acc) rest
    else none
  | acc, c :: rest =>
    if c.toNat < 0x20 then none else parseStrAux (c :: acc) rest

/-- Numeric value of a digit list. -/
def digitsVal (ds : List Char) : Nat :=
  ds.foldl (fun a c => a * 10 + (c.toNat - '0'.toNat)) 0

/-- JSON integer literal parser (`-?(0|[1-9][0-9]*)`); a following `.`, `e` or
`E` is a fractional/exponent form, outside the embedded grammar. -/
def parseNumAux (cs : List Char) : Option (Int × List Char) :=
  let (neg, cs1) := match cs with
    | '-' :: r => (true, r)
    | _ => (false, cs)
  let ds := cs1.takeWhile Char.isDigit
  let rest := cs1.dropWhile Char.isDigit
  if ds.isEmpty then none
  else if 1 < ds.length && ds.head? = some '0' then none
  else
    match rest with
    | '.' :: _ => none
    | 'e' :: _ => none
    | 'E' :: _ => none
    | _ => some (if neg then -(digitsVal ds : Int) else (digitsVal ds : Int), rest)

/-- Literal keyword parser (`true` / `false` / `null` tails). -/
def expectLit (lit : List Char) (cs : List Char) (v : Json) : Option (Json × List Char) :=
  if lit.isPrefixOf cs then some (v, cs.drop lit.length) else none

mutual

/-- Recursive-descent JSON value parser, fuelled for termination. -/
def parseVal : Nat → List Char → Option (Json × List Char)
  | 0, _ => none
  | fuel + 1, cs =>
    match skipWs cs with
    | [] => none
    | c :: rest =>
      if c = '{' then
        match skipWs rest with
        | '}' :: rest2 => some (Json.obj [], rest2)
        | _ => parseObjItems fuel rest []
      else if c = '[' then
        match skipWs rest with
        | ']' :: rest2 => some (Json.arr [], rest2)
        | _ => parseArrItems fuel rest []
      else if c = '"' then
        match parseStrAux [] rest with
        | some (s, r) => some (Json.str s, r)
        | none => none
      else if c = 't' then expectLit ['r', 'u', 'e'] rest (Json.bool true)
      else if c = 'f' then expectLit ['a', 'l', 's', 'e'] rest (Json.bool false)
      else if c = 'n' then expectLit ['u', 'l', 'l'] rest Json.null
      else if c = '-' || c.isDigit then
        match parseNumAux (c :: rest) with
        | some (n, r) => some (Json.num n, r)
        | none => none
      else none

/-- Comma-separated array elements, after at least one element is known to
follow. -/
def parseArrItems : Nat → List Char → List Json → Option (Json × List Char)
  | 0, _, _ => none
  | fuel + 1, cs, acc =>
    match parseVal fuel cs with
    | none => none
    | some (v, rest) =>
      match skipWs rest with
      | ']' :: rest2 => some (Json.arr (v :: acc).reverse, rest2)
      | ',' :: rest2 => parseArrItems fuel rest2 (v :: acc)
      | _ => none

/-- Comma-separated object members, after at least one member is known to
follow. -/
def parseObjItems : Nat → List Char → List (String × Json) → Option (Json × List Char)
  | 0, _, _ => none
  | fuel + 1, cs, acc =>
    match skipWs cs with
    | '"' :: rest =>
      match parseStrAux [] rest with
      | none => none
      | some (k, rest2) =>
        match skipWs rest2 with
        | ':' :: rest3 =>
          match parseVal fuel rest3 with
          | none => none
          | some (v, rest4) =>
            match skipWs rest4 with
            | '}' :: rest5 => some (Json.obj ((k, v) :: acc).reverse, rest5)
            | ',' :: rest5 => parseObjItems fuel rest5 ((k, v) :: acc)
            | _ => none
        | _ => none
    | _ => none

end

/-- The embedding of `JSON.parse`: parse one value and require only whitespace
to remain.  `none` models a thrown `SyntaxError`. -/
def jsonParse (s : String) : Option Json :=
  match parseVal (4 * s.length + 16) s.data with
  | some (v, rest) => if (skipWs rest).isEmpty then some v else none
  | none => none

/-- JavaScript truthiness of a JSON value. -/
def Json.truthy : Json → Bool
  | Json.null => false
  | Json.bool b => b
  | Json.num n => !(n = 0)
  | Json.str s => !(s = "")
  | Json.arr _ => true
  | Json.obj _ => true

/-- Truthiness through optional chaining (`undefined` is falsy). -/
def truthyO : Option Json → Bool
  | none => false
  | some j => j.truthy

/-- Whether the value is a JSON array. -/
def Json.isArr : Json → Bool
  | Json.arr _ => true
  | _ => false

/-- Property read with optional chaining, `s?.k`: only objects yield fields,
and the last occurrence of a duplicated key wins, as in `JSON.parse`. -/
def getField (j : Json) (k : String) : Option Json :=
  match j with
  | Json.obj fields => (fields.reverse.find? (fun p => p.1 = k)).map (fun p => p.2)
  | _ => none

mutual

/-- JavaScript `toString()` on a parsed JSON value (arrays join their elements
with commas; objects print as `[object Object]`). -/
def jsToString : Json → String
  | Json.null => "null"
  | Json.bool true => "true"
  | Json.bool false => "false"
  | Json.num n => toString n
  | Json.str s => s
  | Json.arr xs => jsToStringList xs
  | Json.obj _ => "[object Object]"

/-- Comma-joined element rendering used by array `toString()`; `null` elements
render empty. -/
def jsToStringList : List Json → String
  | [] => ""
  | [Json.null] => ""
  | [x] => jsToString x
  | Json.null :: xs => "," ++ jsToStringList xs
  | x :: xs => jsToString x ++ "," ++ jsToStringList xs

end

-- ------------------------------------------
-- Code fence stripping (`parseFactsResponse` / `parseSuggestionResponse`)
-- ------------------------------------------

/-- `responseText.replace(/^```json\s*/i, "")`: an anchored, case-insensitive
leading fence marker and the whitespace after it are removed. -/
def stripLeadingFence (s : String) : String :=
  if jsToLower (String.mk (s.data.take 7)) = "```json" then
    String.mk ((s.data.drop 7).dropWhile isJsSpace)
  else s

/-- `.replace(/```\s*$/i, "")`: the first backtick triple followed only by
whitespace up to the end of the string is removed together with that
whitespace. -/
def stripTrailingFence (s : String) : String :=
  let t := (s.data.reverse.dropWhile isJsSpace).reverse
  if ['`', '`', '`'].isSuffixOf t then String.mk (t.take (t.length - 3)) else s

/-- The `cleaned` value both parsers compute: strip the fences, then `trim()`. -/
def cleanResponse (s : String) : String :=
  jsTrim (stripTrailingFence (stripLeadingFence s))

-- ------------------------------------------
-- Data model
-- ------------------------------------------

/-- The `MovieData` input record.  Absent optional fields are `none`; the
sub-record lists (`genres`, `production_companies`, `created_by`, `networks`)
are embedded as their `name` projections, which is all the service reads.
Fields the service never reads (`genre_ids`, `vote_average`, `id`, `director`,
`cast`, `episode_run_time`) are omitted: no embedded function can depend on
them. -/
structure MovieData where
  title : Option String := none
  name : Option String := none
  release_date : Option String := none
  first_air_date : Option String := none
  overview : Option String := none
  original_language : Option String := none
  runtime : Option Nat := none
  genres : Option (List String) := none
  production_companies : Option (List String) := none
  created_by : Option (List String) := none
  networks : Option (List String) := none
  number_of_seasons : Option Nat := none
  number_of_episodes : Option Nat := none
deriving Repr

/-- `facts`/`success`/`error` result of `generateFacts`. -/
structure AIFactsResponse where
  facts : List String
  success : Bool
  error : Option String := none
deriving Repr, DecidableEq

/-- The suggestion payload (the `type` field is the raw string the validator
accepted). -/
structure Suggestion where
  title : String
  year : String
  type : String
  overview : String
  reason : String
  searchKeyword : String
deriving Repr, DecidableEq

/-- `suggestion`/`success`/`error` result of `generateSuggestion`. -/
structure AISuggestionResponse where
  suggestion : Suggestion
  success : Bool
  error : Option String := none
deriving Repr, DecidableEq

-- ------------------------------------------
-- Prompt generation (`createMoviePrompt`)
-- ------------------------------------------

/-- Truthiness of an optional JS string (`undefined` and `""` are falsy). -/
def jsTruthyStr : Option String → Bool
  | none => false
  | some s => !(s = "")

/-- `isTV = !!data.name`. -/
def promptIsTV (d : MovieData) : Bool :=
  jsTruthyStr d.name

/-- Template interpolation of a possibly-undefined string. -/
def jsInterpOpt : Option String → String
  | some s => s
  | none => "undefined"

/-- Template interpolation of a possibly-undefined number. -/
def jsInterpNat : Option Nat → String
  | some n => toString n
  | none => "undefined"

/-- `x || dflt` on an optional string. -/
def jsOrStr (o : Option String) (dflt : String) : String :=
  match o with
  | some s => if s = "" then dflt else s
  | none => dflt

/-- Modelled `new Date(s).getFullYear()`, as an `Option` (`none` is `NaN`).
The embedded grammar is the ECMAScript date-only forms `YYYY`, `YYYY-MM` and
`YYYY-MM-DD` (the formats the metadata source emits), with calendar-valid
month and day; local time is taken as UTC. Strings outside the grammar give
`NaN`, as the engines do for unparseable input. -/
def jsDateFullYear (s : String) : Option Int :=
  let okNum := fun (t : String) (len : Nat) =>
    t.length = len && t.data.all Char.isDigit
  match jsSplit s '-' with
  | [y] => if okNum y 4 then some (digitsVal y.data : Int) else none
  | [y, m] =>
    if okNum y 4 && okNum m 2 && 1 ≤ digitsVal m.data && digitsVal m.data ≤ 12 then
      some (digitsVal y.data : Int)
    else none
  | [y, m, dd] =>
    if okNum y 4 && okNum m 2 && okNum dd 2 then
      let yv := digitsVal y.data
      let mv := digitsVal m.data
      let dv := digitsVal dd.data
      let leap := yv % 4 = 0 && (¬(yv % 100 = 0) || yv % 400 = 0)
      let dim := if mv = 2 then (if leap then 29 else 28)
        else if mv = 4 || mv = 6 || mv = 9 || mv = 11 then 30 else 31
      if 1 ≤ mv && mv ≤ 12 && 1 ≤ dv && dv ≤ dim then some (yv : Int) else none
    else none
  | _ => none

/-- The `releaseYear` local of `createMoviePrompt`, in its rendered form:
`data.first_air_date ? new Date(data.first_air_date).getFullYear() : "Unknown"`
for TV (with `release_date` in the movie branch); a `NaN` year renders as
`"NaN"`. -/
def promptReleaseYear (d : MovieData) : String :=
  if promptIsTV d then
    match d.first_air_date with
    | none => "Unknown"
    | some s =>
      if s = "" then "Unknown"
      else match jsDateFullYear s with
        | some y => toString y
        | none => "NaN"
  else
    match d.release_date with
    | none => "Unknown"
    | some s =>
      if s = "" then "Unknown"
      else match jsDateFullYear s with
        | some y => toString y
        | none => "NaN"

/-- The media-kind ternary of the prompt template,
`isTV ? "TV Series" : "Movie"`. -/
def mediaLabel (d : MovieData) : String :=
  if promptIsTV d then "TV Series" else "Movie"

/-- `data.genres?.map(g => g.name).join(", ") || "various"`. -/
def genresStr (d : MovieData) : String :=
  match d.genres with
  | none => "various"
  | some l =>
    let j := String.intercalate ", " l
    if j = "" then "various" else j

/-- Truthiness of `list?.length`. -/
def listLenTruthy : Option (List String) → Bool
  | none => false
  | some l => !l.isEmpty

/-- Truthiness of an optional JS number (`undefined` and `0` are falsy). -/
def jsTruthyNat : Option Nat → Bool
  | none => false
  | some n => !(n = 0)

/-- The full facts-prompt template of `createMoviePrompt`, rendered exactly as
the backtick template literal in the source (conditionally-included lines
render as empty lines when their condition is falsy). -/
def createMoviePrompt (d : MovieData) : String :=
  let isTV := promptIsTV d
  let title := jsInterpOpt (if isTV then d.name else d.title)
  "You are an expert cinematic researcher with deep knowledge of movies and TV shows.\n\nGOAL: Generate Top 10 most exciting and factual information about \"" ++
  title ++ "\" (" ++ promptReleaseYear d ++ ") - a " ++ mediaLabel d ++
  ".\n\nIMPORTANT: Use only your training data knowledge. Focus on well-known, verifiable facts that would be commonly reported.\n\nBasic Info:\n- Overview: " ++
  jsOrStr d.overview "Not available" ++
  "\n- Language: " ++ jsOrStr d.original_language "en" ++
  "\n- Genres: " ++ genresStr d ++
  "\n- Runtime: " ++
  (if jsTruthyNat d.runtime then jsInterpNat d.runtime ++ " minutes" else "not specified") ++
  "\n" ++
  (if listLenTruthy d.production_companies then
    "- Producers: " ++ String.intercalate ", " (d.production_companies.getD []) else "") ++
  "\n" ++
  (if isTV && listLenTruthy d.created_by then
    "- Creators: " ++ String.intercalate ", " (d.created_by.getD []) else "") ++
  "\n" ++
  (if isTV && listLenTruthy d.networks then
    "- Networks: " ++ String.intercalate ", " (d.networks.getD []) else "") ++
  "\n" ++
  (if isTV && jsTruthyNat d.number_of_seasons then
    "- Seasons: " ++ jsInterpNat d.number_of_seasons ++ ", Episodes: " ++
      jsInterpNat d.number_of_episodes else "") ++
  "\n\nRequirements:\n1. Focus on widely-known, well-documented facts from your training data\n2. Format as compelling, single-paragraph facts\n3. Include box office/streaming performance if available\n4. Cover production stories, cast details, awards, controversies\n5. Make each fact attention-grabbing and viral-worthy\n6. Ensure accuracy - only include information you're confident about\n\nReturn exactly 10 facts as JSON array:\n[\"Exciting fact 1\", \"Exciting fact 2\", ...]\n\nReturn ONLY the JSON array, no other text."

-- ------------------------------------------
-- Parsers
-- ------------------------------------------

/-- The JSON-branch filter of `parseFactsResponse`:
`facts.filter(f => typeof f === "string" && f.trim().length > 10).slice(0, 10)`
(elements are kept untrimmed). -/
def factsFilter (facts : List Json) : List String :=
  (facts.filterMap (fun f =>
    match f with
    | Json.str s => if 10 < (jsTrim s).length then some s else none
    | _ => none)).take 10

/-- `l.replace(/^\d+\.\s*/, "")`: strip a leading digit run, a dot and the
whitespace after them. -/
def stripEnum (l : String) : String :=
  let ds := l.data.takeWhile Char.isDigit
  if ds.isEmpty then l
  else
    match l.data.drop ds.length with
    | '.' :: rest => String.mk (rest.dropWhile isJsSpace)
    | _ => l

/-- `l.replace(/^[-*â€¢]\s*/, "")`: strip one leading marker character and the
whitespace after it.  The source file's character class holds, besides `-` and
`*`, the three literal characters U+00E2, U+20AC, U+00A2 (a mis-decoded bullet
glyph), not U+2022. -/
def stripBullet (l : String) : String :=
  match l.data with
  | [] => l
  | c :: rest =>
    if c = '-' || c = '*' || c = Char.ofNat 0xE2 || c = Char.ofNat 0x20AC ||
       c = Char.ofNat 0xA2 then
      String.mk (rest.dropWhile isJsSpace)
    else l

/-- Line filter of the fallback branch (applied to the trimmed line):
`l.length > 20 && !l.startsWith("{") && !l.startsWith("[")`. -/
def keepLine (l : String) : Bool :=
  20 < l.length && !(startsWithChar l '{') && !(startsWithChar l '[')

/-- The `catch` branch of `parseFactsResponse`: line-based heuristic extraction
over the original `responseText`. -/
def fallbackLines (text : String) : List String :=
  ((((jsSplit text '\n').map jsTrim).filter keepLine).map
    (fun l => stripBullet (stripEnum l))).take 10

/-- `parseFactsResponse`: fence-strip and trim, try `JSON.parse`; an array is
filtered and truncated, a parse failure falls back to line extraction, and any
other parsed value yields `[]`. -/
def parseFactsResponse (responseText : String) : List String :=
  match jsonParse (cleanResponse responseText) with
  | some (Json.arr facts) => factsFilter facts
  | some _ => []
  | none => fallbackLines responseText

/-- Message of the modelled `JSON.parse` `SyntaxError` (engine texts vary; the
service only passes the message through `handleError`). -/
def jsonSyntaxErrorMsg : String := "Unexpected token in JSON"

/-- Message of the modelled `TypeError` raised by calling `.trim()` on a
non-string field. -/
def trimTypeErrorMsg : String := "trim is not a function"

/-- `field.trim()` on a possibly-absent parsed value: only strings have the
method; anything else throws. -/
def jsTrimField : Option Json → Except String String
  | some (Json.str s) => Except.ok (jsTrim s)
  | _ => Except.error trimTypeErrorMsg

/-- Body of `parseSuggestionResponse` after `JSON.parse` succeeded: the
six-field truthiness check, the `type` check, then construction of the result
record (trimming calls throw on non-string fields, in source order). -/
def suggestFromJson (s : Json) : Except String Suggestion :=
  if !(truthyO (getField s "title")) || !(truthyO (getField s "year")) ||
     !(truthyO (getField s "type")) || !(truthyO (getField s "overview")) ||
     !(truthyO (getField s "reason")) || !(truthyO (getField s "searchKeyword")) then
    Except.error "Invalid suggestion format"
  else
    match getField s "type" with
    | some (Json.str t) =>
      if !(t = "movie") && !(t = "series") then Except.error "Invalid suggestion type"
      else do
        let title ← jsTrimField (getField s "title")
        let year := jsToString ((getField s "year").getD Json.null)
        let overview ← jsTrimField (getField s "overview")
        let reason ← jsTrimField (getField s "reason")
        let searchKeyword ← jsTrimField (getField s "searchKeyword")
        Except.ok ⟨title, year, t, overview, reason, searchKeyword⟩
    | _ => Except.error "Invalid suggestion type"

/-- `parseSuggestionResponse`: fence-strip and trim, strict `JSON.parse` (a
parse failure propagates as a thrown error — no fallback), then validate and
build the record. -/
def parseSuggestionResponse (responseText : String) : Except String Suggestion :=
  match jsonParse (cleanResponse responseText) with
  | none => Except.error jsonSyntaxErrorMsg
  | some s => suggestFromJson s

-- ------------------------------------------
-- Error handling (`handleError`)
-- ------------------------------------------

/-- `handleError`: classify by case-insensitive substring match on the
lowercased message, first match wins, otherwise pass the message through. -/
def handleError (message : String) : String :=
  let m := jsToLower message
  if containsSub m "api key" || containsSub m "authentication" then
    "AI service authentication failed. Please check configuration."
  else if containsSub m "quota" || containsSub m "rate limit" then
    "AI service rate limit exceeded. Please try again later."
  else if containsSub m "overloaded" || containsSub m "unavailable" then
    "The AI service is temporarily overloaded. Please try again shortly."
  else if containsSub m "blocked" || containsSub m "safety" then
    "Content was blocked by safety filters."
  else message

-- ------------------------------------------
-- Retry wrapper and API methods
-- ------------------------------------------

/-- `retry(fn, retries, delayMs)`.  The endpoint behaviour is a function from
the attempt index to a thrown message or a reply; besides the result the model
returns the number of invocations made and the waits (in ms) taken between
them, so that call counts and the doubling backoff are observable. -/
def retryAux (fn : Nat → Except String α) (attempt : Nat) :
    Nat → Nat → Except String α × Nat × List Nat
  | retries, delayMs =>
    match fn attempt with
    | Except.ok v => (Except.ok v, 1, [])
    | Except.error e =>
      match retries with
      | 0 => (Except.error e, 1, [])
      | r + 1 =>
        let rec1 := retryAux fn (attempt + 1) r (delayMs * 2)
        (rec1.1, rec1.2.1 + 1, delayMs :: rec1.2.2)

/-- `retry` at its default arguments (`retries = 2`, `delayMs = 900`), as the
facts path invokes it. -/
def retryDefault (fn : Nat → Except String α) : Except String α × Nat × List Nat :=
  retryAux fn 0 2 900

/-- `data.name || data.title`. -/
def jsOrOpt (a b : Option String) : Option String :=
  match a with
  | some s => if s = "" then b else some s
  | none => b

/-- The `try` body of `generateFacts` (`Except.error` is a thrown error on its
way to the `catch`), paired with the number of endpoint invocations.  An
endpoint reply of `none` models a response without text. -/
def genFactsTry (endpoint : Nat → Except String (Option String)) (d : MovieData) :
    Except String (List String) × Nat :=
  match jsOrOpt d.name d.title with
  | none => (Except.error "Title is required", 0)
  | some t =>
    if t = "" then (Except.error "Title is required", 0)
    else
      match retryDefault endpoint with
      | (Except.error e, n, _) => (Except.error e, n)
      | (Except.ok none, n, _) => (Except.error "Empty response from Gemini API", n)
      | (Except.ok (some text), n, _) =>
        if text = "" then (Except.error "Empty response from Gemini API", n)
        else if (parseFactsResponse text).isEmpty then
          (Except.error "No valid facts extracted", n)
        else (Except.ok (parseFactsResponse text), n)

/-- `generateFacts`: the `try` body with its `catch`, which converts any thrown
error into a `success=false` result carrying the normalized message.  The
second component counts endpoint invocations. -/
def generateFacts (endpoint : Nat → Except String (Option String)) (d : MovieData) :
    AIFactsResponse × Nat :=
  match genFactsTry endpoint d with
  | (Except.ok facts, n) => ({ facts := facts, success := true }, n)
  | (Except.error e, n) =>
    ({ facts := [], success := false, error := some (handleError e) }, n)

/-- The placeholder suggestion returned on failure. -/
def emptySuggestion : Suggestion :=
  { title := "", year := "", type := "movie", overview := "", reason := "",
    searchKeyword := "" }

/-- The `try` body of `generateSuggestion` (no retry on this path). -/
def genSuggestionTry (endpoint : Except String (Option String)) :
    Except String Suggestion :=
  match endpoint with
  | Except.error e => Except.error e
  | Except.ok none => Except.error "Empty response from Gemini API"
  | Except.ok (some text) =>
    if text = "" then Except.error "Empty response from Gemini API"
    else parseSuggestionResponse text

/-- `generateSuggestion`: the `try` body with its `catch`, which returns the
all-empty placeholder record and the normalized message. -/
def generateSuggestion (endpoint : Except String (Option String)) :
    AISuggestionResponse :=
  match genSuggestionTry endpoint with
  | Except.ok s => { suggestion := s, success := true }
  | Except.error e =>
    { suggestion := emptySuggestion, success := false, error := some (handleError e) }

-- ------------------------------------------
-- Specification-side definitions (following the spec's words,
-- for comparison with the source embedding above)
-- ------------------------------------------

/-- The error-classification table as the spec states it: patterns with their
replacement message, in priority order. -/
def errorRules : List (List String × String) :=
  [(["api key", "authentication"],
    "AI service authentication failed. Please check configuration."),
   (["quota", "rate limit"],
    "AI service rate limit exceeded. Please try again later."),
   (["overloaded", "unavailable"],
    "The AI service is temporarily overloaded. Please try again shortly."),
   (["blocked", "safety"],
    "Content was blocked by safety filters.")]

/-- `normalizeError` as the spec words it: case-insensitive substring match
against the lowercased message, first matching rule wins, otherwise the
message passes through verbatim. -/
def specNormalizeError (message : String) : String :=
  match errorRules.find? (fun r => r.1.any (fun p => containsSub (jsToLower message) p)) with
  | some r => r.2
  | none => message

/-- The facts filter exactly as the claim words it: keep array elements that
are strings longer than 10 characters (no trimming before the length test). -/
def specC4LiteralFilter (facts : List Json) : List String :=
  (facts.filterMap (fun f =>
    match f with
    | Json.str s => if 10 < s.length then some s else none
    | _ => none)).take 10

/-- The line fallback exactly as the claim words it: split into lines, keep
lines longer than 20 characters not beginning with a brace or bracket (no
trimming of the lines), strip leading markers, keep the first 10. -/
def specC5LiteralExtract (text : String) : List String :=
  (((jsSplit text '\n').filter keepLine).map
    (fun l => stripBullet (stripEnum l))).take 10

/-- Whether the field is present and holds a string. -/
def isStrField (s : Json) (k : String) : Bool :=
  match getField s k with
  | some (Json.str _) => true
  | _ => false

/-- Success condition of the suggestion validator as amended: the six fields
present and truthy, `type` exactly `"movie"` or `"series"`, and the four
trimmed text fields actually strings (`year` may be any truthy value — it is
stringified, not trimmed). -/
def specSuggestionOk (s : Json) : Bool :=
  truthyO (getField s "title") && truthyO (getField s "year") &&
  truthyO (getField s "type") && truthyO (getField s "overview") &&
  truthyO (getField s "reason") && truthyO (getField s "searchKeyword") &&
  (match getField s "type" with
   | some (Json.str t) => t = "movie" || t = "series"
   | _ => false) &&
  isStrField s "title" && isStrField s "overview" && isStrField s "reason" &&
  isStrField s "searchKeyword"

-- ------------------------------------------
-- Concrete inputs used by witnesses and counterexamples
-- ------------------------------------------

/-- Endpoint whose every attempt throws an error with an empty message. -/
def c1FailEndpoint : Nat → Except String (Option String) := fun _ => Except.error ""

/-- A reply that is not JSON; its single line is 21 characters, survives the
fallback's length test, and is reduced to the empty string by the enumeration
marker strip. -/
def c1ShortFactText : String := "12345678901234567890."

/-- Endpoint that replies with `c1ShortFactText` on every attempt. -/
def c1ShortFactEndpoint : Nat → Except String (Option String) :=
  fun _ => Except.ok (some c1ShortFactText)

/-- A movie record with a title. -/
def duneMovie : MovieData := { title := some "Dune" }

/-- A movie whose `release_date` is present but unparseable as a date. -/
def c2BadDateMovie : MovieData :=
  { title := some "Inception", release_date := some "not-a-date" }

/-- A series record with a parseable `first_air_date`. -/
def c2SeriesData : MovieData :=
  { name := some "Dark", first_air_date := some "2017-12-01" }

/-- A record whose `name` is present but holds the empty string, with no
`title`. -/
def c3EmptyNameData : MovieData := { name := some "", title := none }

/-- A record with only a `title`. -/
def c3MovieData : MovieData := { title := some "Heat" }

/-- A JSON array holding one string of trimmed length over 10 and one string
longer than 10 characters whose trimmed length is 5. -/
def c4CexInput : String := "[\"aaaaaaaaaaaa\", \"hello      \"]"

/-- The parsed elements of `c4CexInput`. -/
def c4CexArr : List Json := [Json.str "aaaaaaaaaaaa", Json.str "hello      "]

/-- The spec's fenced two-fact example input. -/
def c4FenceInput : String := "```json\n[\"a valid fact here\",\"another one too\"]\n```"

/-- Fifteen qualifying fact strings. -/
def c4FifteenList : List String :=
  ["exciting fact number 01", "exciting fact number 02", "exciting fact number 03",
   "exciting fact number 04", "exciting fact number 05", "exciting fact number 06",
   "exciting fact number 07", "exciting fact number 08", "exciting fact number 09",
   "exciting fact number 10", "exciting fact number 11", "exciting fact number 12",
   "exciting fact number 13", "exciting fact number 14", "exciting fact number 15"]

/-- A JSON array of the fifteen qualifying strings. -/
def c4FifteenInput : String :=
  "[" ++ String.intercalate "," (c4FifteenList.map (fun s => "\"" ++ s ++ "\"")) ++ "]"

/-- A single line of 26 characters (4 letters and 22 trailing spaces): longer
than 20 characters as written, but of trimmed length 4. -/
def c5CexInput : String := "aaaa" ++ String.mk (List.replicate 22 ' ')

/-- The spec's two-line fallback example input. -/
def c5Example : String :=
  "not json at all but this line is long enough to count\nshort"

/-- A suggestion reply whose six fields are all present and truthy with
`type = "movie"`, but whose `title` is a number. -/
def c6CexInput : String :=
  "\x7b\"title\":12345678901,\"year\":\"2020\",\"type\":\"movie\",\"overview\":\"o\",\"reason\":\"r\",\"searchKeyword\":\"k\"\x7d"

/-- The spec's numeric-year suggestion example. -/
def c6YearInput : String :=
  "\x7b\"title\":\"X\",\"year\":2020,\"type\":\"movie\",\"overview\":\"o\",\"reason\":\"r\",\"searchKeyword\":\"k\"\x7d"

/-- The spec's invalid-type suggestion example, completed with the remaining
required fields. -/
def c6BookInput : String :=
  "\x7b\"title\":\"X\",\"year\":2020,\"type\":\"book\",\"overview\":\"o\",\"reason\":\"r\",\"searchKeyword\":\"k\"\x7d"

/-- The parsed value of `c6CexInput`. -/
def c6CexJson : Json :=
  Json.obj [("title", Json.num 12345678901), ("year", Json.str "2020"),
    ("type", Json.str "movie"), ("overview", Json.str "o"),
    ("reason", Json.str "r"), ("searchKeyword", Json.str "k")]

-- ------------------------------------------
-- Helper lemmas
-- ------------------------------------------

/-- Every branch of `parseFactsResponse` truncates to at most 10 facts. -/
theorem parseFactsResponse_length_le (text : String) :
    (parseFactsResponse text).length ≤ 10 := by
  unfold parseFactsResponse factsFilter fallbackLines
  split
  · exact List.length_take_le _ _
  · simp
  · exact List.length_take_le _ _

/-- C9's error message passes through the classifier unchanged. -/
theorem handleError_title_required :
    handleError "Title is required" = "Title is required" := by decide

/-- C10's error message passes through the classifier unchanged. -/
theorem handleError_no_facts :
    handleError "No valid facts extracted" = "No valid facts extracted" := by decide

-- ------------------------------------------
-- Claim theorems
-- ------------------------------------------

/-- C9: for any endpoint behaviour, `generateFacts` on a record with neither
`title` nor `name` returns the failure result with error `"Title is required"`
and performs zero endpoint invocations. -/
theorem facts_title_required_confirmed
    (ep : Nat → Except String (Option String)) (d : MovieData)
    (hn : d.name = none) (ht : d.title = none) :
    generateFacts ep d =
      ({ facts := [], success := false, error := some "Title is required" }, 0) := by
  unfold generateFacts genFactsTry jsOrOpt
  rw [hn, ht]
  rfl

/-- Witness for C9 at a concrete record and endpoint. -/
theorem facts_title_required_witness :
    generateFacts (fun _ => Except.ok (some "reply")) {} =
      ({ facts := [], success := false, error := some "Title is required" }, 0) :=
  facts_title_required_confirmed (fun _ => Except.ok (some "reply")) {} rfl rfl

/-- C8: `retry` at its defaults executes the operation up to 3 times — an
immediate success is returned after one invocation, a success within the
budget (two failures, then a success) is returned after three invocations
(with the doubling 900 ms / 1800 ms waits), failure on every attempt
re-raises the final failure, and the `generateFacts` boundary converts such
an exhausted retry into a failure result carrying the normalized final
message. -/
theorem retry_semantics_confirmed :
    (∀ (α : Type) (fn : Nat → Except String α) (v : α),
       fn 0 = Except.ok v → retryDefault fn = (Except.ok v, 1, []))
  ∧ (∀ (α : Type) (fn : Nat → Except String α) (e0 e1 : String) (v : α),
       fn 0 = Except.error e0 → fn 1 = Except.error e1 → fn 2 = Except.ok v →
       retryDefault fn = (Except.ok v, 3, [900, 1800]))
  ∧ (∀ (α : Type) (fn : Nat → Except String α) (e0 e1 e2 : String),
       fn 0 = Except.error e0 → fn 1 = Except.error e1 → fn 2 = Except.error e2 →
       retryDefault fn = (Except.error e2, 3, [900, 1800]))
  ∧ (∀ (ep : Nat → Except String (Option String)) (d : MovieData) (t e0 e1 e2 : String),
       jsOrOpt d.name d.title = some t → t ≠ "" →
       ep 0 = Except.error e0 → ep 1 = Except.error e1 → ep 2 = Except.error e2 →
       generateFacts ep d =
         ({ facts := [], success := false, error := some (handleError e2) }, 3)) := by
  refine ⟨?_, ?_, ?_, ?_⟩
  · intro α fn v h0
    simp [retryDefault, retryAux, h0]
  · intro α fn e0 e1 v h0 h1 h2
    simp [retryDefault, retryAux, h0, h1, h2]
  · intro α fn e0 e1 e2 h0 h1 h2
    simp [retryDefault, retryAux, h0, h1, h2]
  · intro ep d t e0 e1 e2 hOr ht h0 h1 h2
    unfold generateFacts genFactsTry
    rw [hOr]
    dsimp only
    rw [if_neg ht]
    have hr : retryDefault ep = (Except.error e2, 3, [900, 1800]) := by
      simp [retryDefault, retryAux, h0, h1, h2]
    rw [hr]

/-- Witness for C8 at concrete operations. -/
theorem retry_semantics_witness :
    retryDefault (fun _ => (Except.ok 7 : Except String Nat)) = (Except.ok 7, 1, [])
  ∧ retryDefault (fun n => if n < 2 then Except.error "boom" else Except.ok 7) =
      (Except.ok 7, 3, [900, 1800])
  ∧ retryDefault (fun n => (Except.error (toString n) : Except String Nat)) =
      (Except.error "2", 3, [900, 1800])
  ∧ generateFacts (fun n => Except.error (toString n)) duneMovie =
      ({ facts := [], success := false, error := some (handleError "2") }, 3) :=
  ⟨retry_semantics_confirmed.1 Nat _ 7 rfl,
   retry_semantics_confirmed.2.1 Nat _ "boom" "boom" 7 rfl rfl rfl,
   retry_semantics_confirmed.2.2.1 Nat _ "0" "1" "2" rfl rfl rfl,
   retry_semantics_confirmed.2.2.2 _ duneMovie "Dune" "0" "1" "2" rfl (by decide)
     rfl rfl rfl⟩

/-- Helper for C10: a parsed non-array value yields the empty fact list (no
fallback is attempted). -/
theorem parseFactsResponse_nonarray (text : String) (j : Json)
    (hp : jsonParse (cleanResponse text) = some j) (hna : j.isArr = false) :
    parseFactsResponse text = [] := by
  unfold parseFactsResponse
  rw [hp]
  cases j <;> simp_all [Json.isArr]

/-- C10: when the cleaned reply parses as JSON but not as an array,
`parseFactsResponse` returns the empty sequence without the line fallback,
and `generateFacts` on an endpoint returning such a reply fails with
`"No valid facts extracted"`. -/
theorem parse_facts_nonarray_confirmed :
    (∀ (text : String) (j : Json), jsonParse (cleanResponse text) = some j →
       j.isArr = false → parseFactsResponse text = [])
  ∧ (∀ (text : String) (j : Json) (ep : Nat → Except String (Option String))
       (d : MovieData) (t : String),
       jsonParse (cleanResponse text) = some j → j.isArr = false →
       jsOrOpt d.name d.title = some t → t ≠ "" →
       ep = (fun _ => Except.ok (some text)) →
       generateFacts ep d =
         ({ facts := [], success := false, error := some "No valid facts extracted" }, 1)) := by
  constructor
  · exact parseFactsResponse_nonarray
  · intro text j ep d t hp hna hOr ht hep
    subst hep
    have htext : ¬(text = "") := by
      intro he
      subst he
      rw [show cleanResponse "" = "" from rfl] at hp
      rw [show jsonParse "" = none from rfl] at hp
      exact Option.noConfusion hp
    unfold generateFacts genFactsTry
    rw [hOr]
    dsimp only
    rw [if_neg ht]
    have hr : retryDefault (fun _ => Except.ok (some text)) =
        (Except.ok (some text), 1, []) := by
      simp [retryDefault, retryAux]
    rw [hr]
    simp only [if_neg htext]
    rw [parseFactsResponse_nonarray text j hp hna]
    simp [handleError_no_facts]

/-- Witness for C10 at the concrete reply `"{}"`. -/
theorem parse_facts_nonarray_witness :
    parseFactsResponse "{}" = []
  ∧ generateFacts (fun _ => Except.ok (some "{}")) duneMovie =
      ({ facts := [], success := false, error := some "No valid facts extracted" }, 1) :=
  ⟨parse_facts_nonarray_confirmed.1 "{}" (Json.obj []) rfl rfl,
   parse_facts_nonarray_confirmed.2 "{}" (Json.obj []) _ duneMovie "Dune" rfl rfl rfl
     (by decide) rfl⟩

/-- Counterexample to C2 as stated: a `release_date` that is present but
unparseable renders the year `"NaN"` into the prompt, not the claimed literal
`"Unknown"`. -/
theorem prompt_year_counterexample :
    promptReleaseYear c2BadDateMovie = "NaN"
  ∧ containsSub (createMoviePrompt c2BadDateMovie) "(NaN)" = true
  ∧ ¬promptReleaseYear c2BadDateMovie = "Unknown" := by
  refine ⟨rfl, by rfl, by decide⟩

/-- C2 (amended): the year rendered into the facts prompt is `"Unknown"` when
the relevant date field (`first_air_date` when `name` is truthy,
`release_date` otherwise) is absent or empty, the extracted calendar year when
the date parses, and `"NaN"` when the date is present but unparseable. -/
theorem prompt_year_amended (d : MovieData) :
    (promptIsTV d = true →
       ((d.first_air_date = none ∨ d.first_air_date = some "") →
          promptReleaseYear d = "Unknown")
     ∧ (∀ s, d.first_air_date = some s → s ≠ "" → jsDateFullYear s = none →
          promptReleaseYear d = "NaN")
     ∧ (∀ s y, d.first_air_date = some s → s ≠ "" → jsDateFullYear s = some y →
          promptReleaseYear d = toString y))
  ∧ (promptIsTV d = false →
       ((d.release_date = none ∨ d.release_date = some "") →
          promptReleaseYear d = "Unknown")
     ∧ (∀ s, d.release_date = some s → s ≠ "" → jsDateFullYear s = none →
          promptReleaseYear d = "NaN")
     ∧ (∀ s y, d.release_date = some s → s ≠ "" → jsDateFullYear s = some y →
          promptReleaseYear d = toString y)) := by
  constructor
  · intro hTV
    refine ⟨?_, ?_, ?_⟩
    · rintro (h | h) <;> simp [promptReleaseYear, hTV, h]
    · intro s hs hne hd
      simp [promptReleaseYear, hTV, hs, hne, hd]
    · intro s y hs hne hd
      simp [promptReleaseYear, hTV, hs, hne, hd]
  · intro hTV
    refine ⟨?_, ?_, ?_⟩
    · rintro (h | h) <;> simp [promptReleaseYear, hTV, h]
    · intro s hs hne hd
      simp [promptReleaseYear, hTV, hs, hne, hd]
    · intro s y hs hne hd
      simp [promptReleaseYear, hTV, hs, hne, hd]

/-- Witness for C2 (amended) at a parseable series date and an absent one. -/
theorem prompt_year_witness :
    promptReleaseYear c2SeriesData = toString (2017 : Int)
  ∧ promptReleaseYear { name := some "Dark" } = "Unknown" :=
  ⟨((prompt_year_amended c2SeriesData).1 (by decide)).2.2 "2017-12-01" 2017 rfl
     (by decide) rfl,
   ((prompt_year_amended { name := some "Dark" }).1 (by decide)).1 (Or.inl rfl)⟩

/-- Counterexample to C3 as stated: a record whose `name` is set (to the empty
string) with no `title` is labelled `"Movie"`, not `"TV Series"` — the source
tests `!!data.name`, which is false for the empty string. -/
theorem prompt_label_counterexample :
    mediaLabel c3EmptyNameData = "Movie"
  ∧ containsSub (createMoviePrompt c3EmptyNameData) "- a Movie." = true
  ∧ containsSub (createMoviePrompt c3EmptyNameData) "TV Series" = false
  ∧ ¬mediaLabel c3EmptyNameData = "TV Series" := by
  refine ⟨rfl, by rfl, by rfl, by decide⟩

/-- C3 (amended): a record whose `name` is set to a non-empty string (and no
`title`) is labelled `"TV Series"` in the facts prompt; a record with `title`
set and no `name` is labelled `"Movie"`. -/
theorem prompt_label_amended (d : MovieData) :
    (∀ n, d.name = some n → n ≠ "" → d.title = none → mediaLabel d = "TV Series")
  ∧ (d.title.isSome = true → d.name = none → mediaLabel d = "Movie") := by
  constructor
  · intro n hn hne _
    simp [mediaLabel, promptIsTV, jsTruthyStr, hn, hne]
  · intro _ hn
    simp [mediaLabel, promptIsTV, jsTruthyStr, hn]

/-- Witness for C3 (amended) at concrete records. -/
theorem prompt_label_witness :
    mediaLabel { name := some "Dark", title := none } = "TV Series"
  ∧ mediaLabel c3MovieData = "Movie" :=
  ⟨(prompt_label_amended { name := some "Dark", title := none }).1 "Dark" rfl
     (by decide) rfl,
   (prompt_label_amended c3MovieData).2 rfl rfl⟩

/-- Helper for C7: the embedded `handleError` agrees with the spec-side
first-match-wins rule table on every message. -/
theorem handleError_eq_spec (msg : String) : handleError msg = specNormalizeError msg := by
  unfold handleError specNormalizeError errorRules
  simp only [List.find?, List.any_cons, List.any_nil, Bool.or_false]
  cases h1 : (containsSub (jsToLower msg) "api key" ||
      containsSub (jsToLower msg) "authentication") <;>
    cases h2 : (containsSub (jsToLower msg) "quota" ||
        containsSub (jsToLower msg) "rate limit") <;>
      cases h3 : (containsSub (jsToLower msg) "overloaded" ||
          containsSub (jsToLower msg) "unavailable") <;>
        cases h4 : (containsSub (jsToLower msg) "blocked" ||
            containsSub (jsToLower msg) "safety") <;>
          simp_all

/-- A substring occurrence of a concatenation yields an occurrence of its
first part. -/
theorem containsSubList_append_left {p q l : List Char}
    (h : containsSubList (p ++ q) l = true) : containsSubList p l = true := by
  induction l with
  | nil =>
    simp [containsSubList] at h ⊢
    exact h.1
  | cons c rest ih =>
    simp only [containsSubList, Bool.or_eq_true] at h ⊢
    rcases h with h | h
    · left
      rw [List.isPrefixOf_iff_prefix] at h ⊢
      exact (List.prefix_append p q).trans h
    · right
      exact ih h

/-- C7: `handleError` classifies by case-insensitive substring match on the
lowercased message, first match winning in the spec's priority order, and
passes unmatched messages through verbatim; a message containing
"Quota exceeded" in any letter case (and not matching the higher-priority
auth patterns) maps to the rate-limit message. -/
theorem normalize_error_confirmed :
    (∀ msg, handleError msg = specNormalizeError msg)
  ∧ (∀ msg, containsSub (jsToLower msg) "quota exceeded" = true →
       containsSub (jsToLower msg) "api key" = false →
       containsSub (jsToLower msg) "authentication" = false →
       handleError msg = "AI service rate limit exceeded. Please try again later.")
  ∧ handleError "Quota exceeded for project" =
      "AI service rate limit exceeded. Please try again later."
  ∧ handleError "QUOTA EXCEEDED" =
      "AI service rate limit exceeded. Please try again later." := by
  refine ⟨handleError_eq_spec, ?_, by rfl, by rfl⟩
  intro msg hq hak hau
  have hquota : containsSub (jsToLower msg) "quota" = true :=
    @containsSubList_append_left "quota".data " exceeded".data (jsToLower msg).data hq
  simp [handleError, hak, hau, hquota]

/-- Witness for C7 at concrete messages. -/
theorem normalize_error_witness :
    handleError "Quota Exceeded today" =
      "AI service rate limit exceeded. Please try again later."
  ∧ handleError "boom" = specNormalizeError "boom" :=
  ⟨normalize_error_confirmed.2.1 "Quota Exceeded today" (by rfl) (by rfl) (by rfl),
   normalize_error_confirmed.1 "boom"⟩

/-- Counterexample to C4 as stated: the element `"hello      "` is a string
longer than 10 characters, so the claim keeps it, but the source filters on
the trimmed length (`f.trim().length > 10`) and drops it. -/
theorem parse_facts_json_counterexample :
    jsonParse (cleanResponse c4CexInput) = some (Json.arr c4CexArr)
  ∧ specC4LiteralFilter c4CexArr = ["aaaaaaaaaaaa", "hello      "]
  ∧ parseFactsResponse c4CexInput = ["aaaaaaaaaaaa"]
  ∧ ¬parseFactsResponse c4CexInput = specC4LiteralFilter c4CexArr := by
  refine ⟨by rfl, by rfl, by rfl, by decide⟩

/-- C4 (amended): on a reply whose cleaned form parses as a JSON array,
`parseFactsResponse` keeps the elements that are strings whose trimmed form
is longer than 10 characters (the elements themselves untrimmed, order
preserved, no deduplication) and truncates to the first 10; the spec's fenced
two-fact example and first-ten-of-fifteen example evaluate as claimed. -/
theorem parse_facts_json_amended :
    (∀ (text : String) (xs : List Json),
       jsonParse (cleanResponse text) = some (Json.arr xs) →
       parseFactsResponse text = factsFilter xs)
  ∧ parseFactsResponse c4FenceInput = ["a valid fact here", "another one too"]
  ∧ parseFactsResponse c4FifteenInput = c4FifteenList.take 10
  ∧ c4FifteenList.length = 15 := by
  refine ⟨?_, by rfl, by rfl, by rfl⟩
  intro text xs hp
  unfold parseFactsResponse
  rw [hp]

/-- Witness for C4 (amended) at a concrete parsed array. -/
theorem parse_facts_json_witness :
    parseFactsResponse c4CexInput = factsFilter c4CexArr :=
  parse_facts_json_amended.1 c4CexInput c4CexArr rfl

/-- Counterexample to C5 as stated: a 26-character line made of 4 letters and
22 trailing spaces is longer than 20 characters, so the claim keeps it, but
the source trims each line before the length test and drops it. -/
theorem parse_facts_fallback_counterexample :
    jsonParse (cleanResponse c5CexInput) = none
  ∧ specC5LiteralExtract c5CexInput = [c5CexInput]
  ∧ parseFactsResponse c5CexInput = []
  ∧ ¬parseFactsResponse c5CexInput = specC5LiteralExtract c5CexInput := by
  refine ⟨by rfl, by rfl, by rfl, by decide⟩

/-- C5 (amended): when JSON parsing of the cleaned reply fails,
`parseFactsResponse` splits the original text into lines, trims each line,
keeps trimmed lines longer than 20 characters that do not begin with a brace
or bracket, strips a leading enumeration marker (digits plus a dot) and then
a leading bullet glyph with their trailing whitespace, and returns the first
10; the spec's two-line example yields exactly the long line. -/
theorem parse_facts_fallback_amended :
    (∀ text, jsonParse (cleanResponse text) = none →
       parseFactsResponse text = fallbackLines text)
  ∧ parseFactsResponse c5Example =
      ["not json at all but this line is long enough to count"]
  ∧ parseFactsResponse "1. This numbered line is long enough to count here" =
      ["This numbered line is long enough to count here"] := by
  refine ⟨?_, by rfl, by rfl⟩
  intro text hp
  unfold parseFactsResponse
  rw [hp]

/-- Witness for C5 (amended) at the spec's concrete example. -/
theorem parse_facts_fallback_witness :
    parseFactsResponse c5Example = fallbackLines c5Example :=
  parse_facts_fallback_amended.1 c5Example rfl

/-- Helper for C6: `field.trim()` succeeds exactly on string fields. -/
theorem jsTrimField_isOk (s : Json) (k : String) :
    (jsTrimField (getField s k)).isOk = isStrField s k := by
  unfold isStrField
  rcases getField s k with _ | j
  · rfl
  · cases j <;> rfl

/-- Helper for C6: the suggestion validator succeeds exactly on the
spec-side success condition. -/
theorem suggestFromJson_isOk (s : Json) :
    (suggestFromJson s).isOk = specSuggestionOk s := by
  unfold suggestFromJson specSuggestionOk
  by_cases hc : (!(truthyO (getField s "title")) || !(truthyO (getField s "year")) ||
     !(truthyO (getField s "type")) || !(truthyO (getField s "overview")) ||
     !(truthyO (getField s "reason")) || !(truthyO (getField s "searchKeyword"))) = true
  · rw [if_pos hc]
    simp only [Bool.or_eq_true] at hc
    rcases hc with ((((h | h) | h) | h) | h) | h <;>
      rw [Bool.not_eq_true'] at h <;> simp [h, Except.isOk, Except.toBool]
  · rw [if_neg hc]
    simp only [Bool.or_eq_true, not_or, Bool.not_eq_true, Bool.not_eq_false'] at hc
    obtain ⟨⟨⟨⟨⟨t1, t2⟩, t3⟩, t4⟩, t5⟩, t6⟩ := hc
    rcases h2 : getField s "type" with _ | j2
    · rw [h2] at t3
      simp [truthyO] at t3
    · rcases j2 with _ | b | n | t | xs | fs <;> simp only [h2] <;> rw [h2] at t3
      · simp [truthyO, Json.truthy] at t3
      · simp [t1, t2, t3, t4, t5, t6, Except.isOk, Except.toBool]
      · simp [t1, t2, t3, t4, t5, t6, Except.isOk, Except.toBool]
      · by_cases htype : (!(t = "movie") && !(t = "series")) = true
        · rw [if_pos htype]
          simp only [Bool.and_eq_true, Bool.not_eq_true', decide_eq_false_iff_not] at htype
          simp [t1, t2, t3, t4, t5, t6, htype.1, htype.2, Except.isOk, Except.toBool]
        · rw [if_neg htype]
          rw [← jsTrimField_isOk s "title", ← jsTrimField_isOk s "overview",
              ← jsTrimField_isOk s "reason", ← jsTrimField_isOk s "searchKeyword"]
          rw [Bool.not_eq_true] at htype
          simp only [Bool.and_eq_false_iff, Bool.not_eq_false', decide_eq_true_eq] at htype
          rcases hA : jsTrimField (getField s "title") with e | vA <;>
            rcases hB : jsTrimField (getField s "overview") with e | vB <;>
              rcases hC : jsTrimField (getField s "reason") with e | vC <;>
                rcases hD : jsTrimField (getField s "searchKeyword") with e | vD <;>
                  simp [t1, t2, t3, t4, t5, t6, hA, hB, hC, hD, htype, Bind.bind,
                    Except.bind, Except.isOk, Except.toBool]
      · simp [t1, t2, t3, t4, t5, t6, Except.isOk, Except.toBool]
      · simp [t1, t2, t3, t4, t5, t6, Except.isOk, Except.toBool]

/-- Helper for C1: a successfully validated suggestion has `type` `"movie"`
or `"series"`. -/
theorem suggestFromJson_ok_type (s : Json) (sg : Suggestion)
    (h : suggestFromJson s = Except.ok sg) :
    sg.type = "movie" ∨ sg.type = "series" := by
  unfold suggestFromJson at h
  by_cases hc : (!(truthyO (getField s "title")) || !(truthyO (getField s "year")) ||
     !(truthyO (getField s "type")) || !(truthyO (getField s "overview")) ||
     !(truthyO (getField s "reason")) || !(truthyO (getField s "searchKeyword"))) = true
  · rw [if_pos hc] at h
    exact absurd h (by simp)
  · rw [if_neg hc] at h
    rcases h2 : getField s "type" with _ | j2 <;> rw [h2] at h
    · exact absurd h (by simp)
    · rcases j2 with _ | b | n | t | xs | fs
      · exact absurd h (by simp)
      · exact absurd h (by simp)
      · exact absurd h (by simp)
      · dsimp only at h
        by_cases htype : (!(t = "movie") && !(t = "series")) = true
        · rw [if_pos htype] at h
          exact absurd h (by simp)
        · rw [if_neg htype] at h
          rw [Bool.not_eq_true] at htype
          simp only [Bool.and_eq_false_iff, Bool.not_eq_false', decide_eq_true_eq] at htype
          rcases hA : jsTrimField (getField s "title") with e | vA <;>
            rcases hB : jsTrimField (getField s "overview") with e2 | vB <;>
              rcases hC : jsTrimField (getField s "reason") with e3 | vC <;>
                rcases hD : jsTrimField (getField s "searchKeyword") with e4 | vD <;>
                  simp [hA, hB, hC, hD, Bind.bind, Except.bind] at h
          rw [← h]
          simpa using htype
      · exact absurd h (by simp)
      · exact absurd h (by simp)

/-- Counterexample to C6 as stated: all six fields of `c6CexInput` are present
and truthy and `type` is exactly `"movie"`, so the claim's "if and only if"
promises success, but the source calls `.trim()` on the numeric `title` and
throws a `TypeError`, so the parse fails. -/
theorem parse_suggestion_counterexample :
    jsonParse (cleanResponse c6CexInput) = some c6CexJson
  ∧ truthyO (getField c6CexJson "title") = true
  ∧ truthyO (getField c6CexJson "year") = true
  ∧ truthyO (getField c6CexJson "type") = true
  ∧ truthyO (getField c6CexJson "overview") = true
  ∧ truthyO (getField c6CexJson "reason") = true
  ∧ truthyO (getField c6CexJson "searchKeyword") = true
  ∧ getField c6CexJson "type" = some (Json.str "movie")
  ∧ parseSuggestionResponse c6CexInput = Except.error trimTypeErrorMsg := by
  refine ⟨by rfl, by rfl, by rfl, by rfl, by rfl, by rfl, by rfl, by rfl, by rfl⟩

/-- C6 (amended): on a cleaned reply that parses as JSON,
`parseSuggestionResponse` succeeds if and only if the six fields are present
and truthy, `type` is exactly `"movie"` or `"series"` (case-sensitive), and
the four trimmed text fields are strings (`year` may be any truthy value and
is stringified); malformed JSON is a hard failure with no fallback; the
spec's numeric-year example succeeds with `year` coerced to `"2020"` and the
`"book"` example fails with the invalid-type error. -/
theorem parse_suggestion_amended :
    (∀ (text : String) (s : Json), jsonParse (cleanResponse text) = some s →
       (parseSuggestionResponse text).isOk = specSuggestionOk s)
  ∧ (∀ text, jsonParse (cleanResponse text) = none →
       parseSuggestionResponse text = Except.error jsonSyntaxErrorMsg)
  ∧ parseSuggestionResponse c6YearInput =
      Except.ok (Suggestion.mk "X" "2020" "movie" "o" "r" "k")
  ∧ parseSuggestionResponse c6BookInput = Except.error "Invalid suggestion type" := by
  refine ⟨?_, ?_, by rfl, by rfl⟩
  · intro text s hp
    unfold parseSuggestionResponse
    rw [hp]
    exact suggestFromJson_isOk s
  · intro text hp
    unfold parseSuggestionResponse
    rw [hp]

/-- Witness for C6 (amended) at concrete replies. -/
theorem parse_suggestion_witness :
    (parseSuggestionResponse c6CexInput).isOk = specSuggestionOk c6CexJson
  ∧ parseSuggestionResponse "not json \x7b" = Except.error jsonSyntaxErrorMsg :=
  ⟨parse_suggestion_amended.1 c6CexInput c6CexJson rfl,
   parse_suggestion_amended.2.1 "not json \x7b" rfl⟩

/-- Helper for C1: a successful facts result holds a non-empty list of at
most 10 facts. -/
theorem genFactsTry_ok_facts (ep : Nat → Except String (Option String)) (d : MovieData)
    (facts : List String) (n : Nat) (h : genFactsTry ep d = (Except.ok facts, n)) :
    facts ≠ [] ∧ facts.length ≤ 10 := by
  unfold genFactsTry at h
  split at h
  · simp at h
  · split at h
    · simp at h
    · split at h
      · simp at h
      · simp at h
      · split at h
        · simp at h
        · split at h
          · simp at h
          · rename_i hempty
            simp only [Prod.mk.injEq, Except.ok.injEq] at h
            obtain ⟨hf, _⟩ := h
            subst hf
            refine ⟨?_, parseFactsResponse_length_le _⟩
            intro hnil
            rw [hnil] at hempty
            simp at hempty

/-- Helper for C1: a successful suggestion carries a validated `type`. -/
theorem genSuggestionTry_ok_type (ep : Except String (Option String)) (sg : Suggestion)
    (h : genSuggestionTry ep = Except.ok sg) :
    sg.type = "movie" ∨ sg.type = "series" := by
  unfold genSuggestionTry at h
  rcases ep with e | reply
  · simp at h
  · rcases reply with _ | text
    · simp at h
    · dsimp only at h
      by_cases ht : text = ""
      · rw [if_pos ht] at h
        simp at h
      · rw [if_neg ht] at h
        unfold parseSuggestionResponse at h
        rcases hp : jsonParse (cleanResponse text) with _ | s <;> rw [hp] at h <;>
          dsimp only at h
        · exact absurd h (by simp)
        · exact suggestFromJson_ok_type s sg h

/-- Counterexample to C1 as stated: an endpoint whose failures carry an empty
message produces `success=false` with the empty `error` string (not a
non-empty one), and an endpoint replying with `c1ShortFactText` produces
`success=true` whose single fact is the empty string (not a string longer
than 10 characters) — the line fallback's marker stripping ran inside the
length guarantee. -/
theorem results_invariant_counterexample :
    (generateFacts c1FailEndpoint duneMovie).1.success = false
  ∧ (generateFacts c1FailEndpoint duneMovie).1.error = some ""
  ∧ (generateFacts c1ShortFactEndpoint duneMovie).1.success = true
  ∧ (generateFacts c1ShortFactEndpoint duneMovie).1.facts = [""]
  ∧ ¬(10 < String.length "") := by
  refine ⟨by rfl, by rfl, by rfl, by rfl, by decide⟩

/-- C1 (amended): both operations are total over every endpoint behaviour
(thrown errors modelled by their messages) and always produce a result
record; `success=false` implies the facts payload is empty (suggestion: the
all-empty placeholder) and `error` is present — it equals the normalized
message of the underlying failure, which can be empty only when that message
is; `success=true` implies 1–10 facts (suggestion: a validated record with
`type` in {movie, series}) and no `error` field. -/
theorem results_invariant_amended :
    (∀ (ep : Nat → Except String (Option String)) (d : MovieData),
       ((generateFacts ep d).1.success = false →
          (generateFacts ep d).1.facts = [] ∧ ((generateFacts ep d).1.error).isSome = true)
     ∧ ((generateFacts ep d).1.success = true →
          1 ≤ (generateFacts ep d).1.facts.length ∧ (generateFacts ep d).1.facts.length ≤ 10 ∧
          (generateFacts ep d).1.error = none))
  ∧ (∀ (ep : Except String (Option String)),
       ((generateSuggestion ep).success = false →
          (generateSuggestion ep).suggestion = emptySuggestion ∧
          ((generateSuggestion ep).error).isSome = true)
     ∧ ((generateSuggestion ep).success = true →
          ((generateSuggestion ep).suggestion.type = "movie" ∨
           (generateSuggestion ep).suggestion.type = "series") ∧
          (generateSuggestion ep).error = none)) := by
  constructor
  · intro ep d
    rcases hg : genFactsTry ep d with ⟨res, n⟩
    rcases res with e | facts
    · have hgen : generateFacts ep d =
          ({ facts := [], success := false, error := some (handleError e) }, n) := by
        unfold generateFacts
        rw [hg]
      rw [hgen]
      exact ⟨fun _ => ⟨rfl, rfl⟩, fun hs => absurd hs (by simp)⟩
    · have hgen : generateFacts ep d =
          ({ facts := facts, success := true, error := none }, n) := by
        unfold generateFacts
        rw [hg]
      rw [hgen]
      obtain ⟨hne, hle⟩ := genFactsTry_ok_facts ep d facts n hg
      exact ⟨fun hs => absurd hs (by simp),
        fun _ => ⟨List.length_pos.mpr hne, hle, rfl⟩⟩
  · intro ep
    rcases hg : genSuggestionTry ep with e | sg
    · have hgen : generateSuggestion ep =
          { suggestion := emptySuggestion, success := false,
            error := some (handleError e) } := by
        unfold generateSuggestion
        rw [hg]
      rw [hgen]
      exact ⟨fun _ => ⟨rfl, rfl⟩, fun hs => absurd hs (by simp)⟩
    · have hgen : generateSuggestion ep =
          { suggestion := sg, success := true, error := none } := by
        unfold generateSuggestion
        rw [hg]
      rw [hgen]
      exact ⟨fun hs => absurd hs (by simp),
        fun _ => ⟨genSuggestionTry_ok_type ep sg hg, rfl⟩⟩

/-- Witness for C1 (amended) at concrete endpoints covering both operations
and both outcomes. -/
theorem results_invariant_witness :
    ((generateFacts c1FailEndpoint duneMovie).1.facts = [] ∧
       ((generateFacts c1FailEndpoint duneMovie).1.error).isSome = true)
  ∧ (1 ≤ (generateFacts c1ShortFactEndpoint duneMovie).1.facts.length ∧
       (generateFacts c1ShortFactEndpoint duneMovie).1.facts.length ≤ 10 ∧
       (generateFacts c1ShortFactEndpoint duneMovie).1.error = none)
  ∧ ((generateSuggestion (Except.error "boom")).suggestion = emptySuggestion ∧
       ((generateSuggestion (Except.error "boom")).error).isSome = true)
  ∧ (((generateSuggestion (Except.ok (some c6YearInput))).suggestion.type = "movie" ∨
       (generateSuggestion (Except.ok (some c6YearInput))).suggestion.type = "series") ∧
       (generateSuggestion (Except.ok (some c6YearInput))).error = none) :=
  ⟨(results_invariant_amended.1 c1FailEndpoint duneMovie).1 (by rfl),
   (results_invariant_amended.1 c1ShortFactEndpoint duneMovie).2 (by rfl),
   (results_invariant_amended.2 (Except.error "boom")).1 (by rfl),
   (results_invariant_amended.2 (Except.ok (some c6YearInput))).2 (by rfl)⟩

end GeminiService
